import Mathlib

set_option maxHeartbeats 1000000

/- Shallow embedding of src/ioka/api.py: a pydantic + requests based client
for the ioka payment REST API.  Pure validation is modelled by total
functions into Except, the mutable instance/class state of the HTTP client
and of the Order facade is passed explicitly, and the HTTP transport is an
explicit input (a mocked response). -/

/-- pydantic raises ValidationError when constructing a model from bad data.
We record the first offending field: a required field that is absent, or a
present field that violates its declared bound (numeric bound, string
length, enum membership, malformed URL). -/
inductive ValidationError where
  | missing (field : String)
  | bound (field : String)
deriving Repr, DecidableEq

/-- RefundRule (api.py lines 260-262): account_id + amount, no bounds. -/
structure RefundRule where
  account_id : String
  amount : Int
deriving Repr, DecidableEq

/-- CheckPosition (api.py lines 274-285): name/amount/count required, the
rest optional with static numeric defaults. -/
structure CheckPosition where
  name : String
  amount : Int
  count : Int
  «section» : Option Int := none
  tax_percent : Option Int := some 0
  tax_type : Option Int := some 0
  tax_amount : Option Int := some 0
  unit_code : Option Int := some 0
deriving Repr, DecidableEq

/-- Values of the serialized request payload (the dict handed to requests as
the JSON body).  The client only ever serializes strings, integers, flat
string dicts (extra_info) and the two typed lists of RefundOrder. -/
inductive JsonVal where
  | str (s : String)
  | int (n : Int)
  | strDict (kv : List (String × String))
  | ruleList (rs : List RefundRule)
  | posList (ps : List CheckPosition)
deriving Repr, DecidableEq

/-- Model of pydantic's HttpUrl constraint (scheme http/https, a nonempty
host, at most 2083 characters). -/
def isHttpUrl (s : String) : Bool :=
  ((s.startsWith "http://" && 7 < s.length) ||
    (s.startsWith "https://" && 8 < s.length)) && s.length ≤ 2083

/-- The CurrencyEnum members (api.py lines 55-58). -/
def currencyValues : List String := ["KZT", "USD", "RUB"]

/-- The CaptureMethodEnum members (api.py lines 38-40). -/
def captureMethodValues : List String := ["AUTO", "MANUAL"]

/-- Model of uuid.uuid4 followed by str: an injective supply of fresh
identifiers, indexed by how many draws happened before. -/
def uuid4 (draw : Nat) : String := "uuid-" ++ toString draw

/-- The default of the external_id field (api.py line 65):
`external_id: str = Field(str(uuid4()), min_length=1)`.
In Python the expression str(uuid4()) is evaluated exactly ONCE, when the
CreateOrder class body is executed at module load, so the default is this
single module-level constant, shared by every later instantiation. -/
def CreateOrder.externalIdDefault : String := uuid4 0

/-- The keyword arguments a caller may pass to CreateOrder(**data); none
models an absent keyword. -/
structure CreateOrderKwargs where
  amount : Option Int := none
  currency : Option String := none
  capture_method : Option String := none
  external_id : Option String := none
  description : Option String := none
  mcc : Option String := none
  extra_info : Option (List (String × String)) := none
  attempts : Option Int := none
  due_date : Option String := none
  customer_id : Option String := none
  card_id : Option String := none
  back_url : Option String := none
  success_url : Option String := none
  failure_url : Option String := none
  template : Option String := none
deriving Repr, DecidableEq

/-- pydantic's __fields_set__ for CreateOrder: the names of the fields the
caller supplied, in field declaration order. -/
def CreateOrderKwargs.setFields (k : CreateOrderKwargs) : List String :=
  (if k.amount.isSome then ["amount"] else []) ++
  (if k.currency.isSome then ["currency"] else []) ++
  (if k.capture_method.isSome then ["capture_method"] else []) ++
  (if k.external_id.isSome then ["external_id"] else []) ++
  (if k.description.isSome then ["description"] else []) ++
  (if k.mcc.isSome then ["mcc"] else []) ++
  (if k.extra_info.isSome then ["extra_info"] else []) ++
  (if k.attempts.isSome then ["attempts"] else []) ++
  (if k.due_date.isSome then ["due_date"] else []) ++
  (if k.customer_id.isSome then ["customer_id"] else []) ++
  (if k.card_id.isSome then ["card_id"] else []) ++
  (if k.back_url.isSome then ["back_url"] else []) ++
  (if k.success_url.isSome then ["success_url"] else []) ++
  (if k.failure_url.isSome then ["failure_url"] else []) ++
  (if k.template.isSome then ["template"] else [])

/-- The validated CreateOrder model (api.py lines 61-79).  fieldsSet mirrors
pydantic's __fields_set__ and drives dict(exclude_unset=True). -/
structure CreateOrder where
  amount : Int
  currency : Option String
  capture_method : Option String
  external_id : String
  description : Option String
  mcc : Option String
  extra_info : Option (List (String × String))
  attempts : Int
  due_date : Option String
  customer_id : Option String
  card_id : Option String
  back_url : Option String
  success_url : Option String
  failure_url : Option String
  template : Option String
  fieldsSet : List String
deriving Repr, DecidableEq

/-- A bound check on an optional field: absent is fine, present must pass. -/
def optCheck (field : String) (v : Option α) (ok : α → Bool) :
    Option ValidationError :=
  match v with
  | none => none
  | some x => if ok x then none else some (.bound field)

/-- A required field with a bound: absent is a missing-field error. -/
def reqCheck (field : String) (v : Option α) (ok : α → Bool) :
    Option ValidationError :=
  match v with
  | none => some (.missing field)
  | some x => if ok x then none else some (.bound field)

/-- First validation error of a field-order list of checks. -/
def firstErr : List (Option ValidationError) → Option ValidationError
  | [] => none
  | none :: rest => firstErr rest
  | some e :: _ => some e

/-- The field constraints of CreateOrder, in declaration order:
amount ≥ 100 (required); currency/capture_method enum members; external_id
min_length 1; mcc exactly 4 characters; attempts in 1..50; customer_id and
card_id min_length 1; the three urls well formed HttpUrl values. -/
def CreateOrder.checkErr (k : CreateOrderKwargs) : Option ValidationError :=
  firstErr
    [reqCheck "amount" k.amount (fun a => 100 ≤ a),
     optCheck "currency" k.currency (fun c => currencyValues.contains c),
     optCheck "capture_method" k.capture_method
       (fun c => captureMethodValues.contains c),
     optCheck "external_id" k.external_id (fun e => 1 ≤ e.length),
     optCheck "mcc" k.mcc (fun m => m.length = 4),
     optCheck "attempts" k.attempts (fun a => 1 ≤ a && a ≤ 50),
     optCheck "customer_id" k.customer_id (fun c => 1 ≤ c.length),
     optCheck "card_id" k.card_id (fun c => 1 ≤ c.length),
     optCheck "back_url" k.back_url isHttpUrl,
     optCheck "success_url" k.success_url isHttpUrl,
     optCheck "failure_url" k.failure_url isHttpUrl]

/-- The model values after a successful construction: supplied values pass
through unchanged, absent fields take their declared default (None for the
optionals, 10 for attempts, and for external_id the module-load constant
CreateOrder.externalIdDefault). -/
def CreateOrder.build (k : CreateOrderKwargs) : CreateOrder where
  amount := k.amount.getD 0
  currency := k.currency
  capture_method := k.capture_method
  external_id := k.external_id.getD CreateOrder.externalIdDefault
  description := k.description
  mcc := k.mcc
  extra_info := k.extra_info
  attempts := k.attempts.getD 10
  due_date := k.due_date
  customer_id := k.customer_id
  card_id := k.card_id
  back_url := k.back_url
  success_url := k.success_url
  failure_url := k.failure_url
  template := k.template
  fieldsSet := k.setFields

/-- CreateOrder(**data): pydantic construction with validation. -/
def CreateOrder.validate (k : CreateOrderKwargs) :
    Except ValidationError CreateOrder :=
  match CreateOrder.checkErr k with
  | some e => .error e
  | none => .ok (CreateOrder.build k)

/-- model.dict(exclude_unset=True): serialize the fields in declaration
order, keeping exactly those in __fields_set__ (with their values). -/
def CreateOrder.dictExcludeUnset (r : CreateOrder) : List (String × JsonVal) :=
  (if "amount" ∈ r.fieldsSet then [("amount", JsonVal.int r.amount)] else []) ++
  (if "currency" ∈ r.fieldsSet then (r.currency.map fun c => ("currency", JsonVal.str c)).toList else []) ++
  (if "capture_method" ∈ r.fieldsSet then (r.capture_method.map fun c => ("capture_method", JsonVal.str c)).toList else []) ++
  (if "external_id" ∈ r.fieldsSet then [("external_id", JsonVal.str r.external_id)] else []) ++
  (if "description" ∈ r.fieldsSet then (r.description.map fun d => ("description", JsonVal.str d)).toList else []) ++
  (if "mcc" ∈ r.fieldsSet then (r.mcc.map fun m => ("mcc", JsonVal.str m)).toList else []) ++
  (if "extra_info" ∈ r.fieldsSet then (r.extra_info.map fun e => ("extra_info", JsonVal.strDict e)).toList else []) ++
  (if "attempts" ∈ r.fieldsSet then [("attempts", JsonVal.int r.attempts)] else []) ++
  (if "due_date" ∈ r.fieldsSet then (r.due_date.map fun d => ("due_date", JsonVal.str d)).toList else []) ++
  (if "customer_id" ∈ r.fieldsSet then (r.customer_id.map fun c => ("customer_id", JsonVal.str c)).toList else []) ++
  (if "card_id" ∈ r.fieldsSet then (r.card_id.map fun c => ("card_id", JsonVal.str c)).toList else []) ++
  (if "back_url" ∈ r.fieldsSet then (r.back_url.map fun u => ("back_url", JsonVal.str u)).toList else []) ++
  (if "success_url" ∈ r.fieldsSet then (r.success_url.map fun u => ("success_url", JsonVal.str u)).toList else []) ++
  (if "failure_url" ∈ r.fieldsSet then (r.failure_url.map fun u => ("failure_url", JsonVal.str u)).toList else []) ++
  (if "template" ∈ r.fieldsSet then (r.template.map fun t => ("template", JsonVal.str t)).toList else [])

/-- Keyword arguments of CancelOrder(**data) (api.py lines 82-84). -/
structure CancelOrderKwargs where
  order_id : Option String := none
  reason : Option String := none
deriving Repr, DecidableEq

/-- __fields_set__ for CancelOrder. -/
def CancelOrderKwargs.setFields (k : CancelOrderKwargs) : List String :=
  (if k.order_id.isSome then ["order_id"] else []) ++
  (if k.reason.isSome then ["reason"] else [])

/-- The validated CancelOrder model (api.py lines 82-84): order_id required,
reason required with max_length 255. -/
structure CancelOrder where
  order_id : String
  reason : String
  fieldsSet : List String
deriving Repr, DecidableEq

/-- CancelOrder field constraints, in declaration order. -/
def CancelOrder.checkErr (k : CancelOrderKwargs) : Option ValidationError :=
  firstErr
    [reqCheck "order_id" k.order_id (fun _ => true),
     reqCheck "reason" k.reason (fun r => r.length ≤ 255)]

/-- Successful CancelOrder construction. -/
def CancelOrder.build (k : CancelOrderKwargs) : CancelOrder where
  order_id := k.order_id.getD ""
  reason := k.reason.getD ""
  fieldsSet := k.setFields

/-- CancelOrder(**data). -/
def CancelOrder.validate (k : CancelOrderKwargs) :
    Except ValidationError CancelOrder :=
  match CancelOrder.checkErr k with
  | some e => .error e
  | none => .ok (CancelOrder.build k)

/-- CancelOrder .dict(exclude_unset=True). -/
def CancelOrder.dictExcludeUnset (r : CancelOrder) : List (String × JsonVal) :=
  (if "order_id" ∈ r.fieldsSet then [("order_id", JsonVal.str r.order_id)] else []) ++
  (if "reason" ∈ r.fieldsSet then [("reason", JsonVal.str r.reason)] else [])

/-- Keyword arguments of CaptureOrder(**data) (api.py lines 165-167). -/
structure CaptureOrderKwargs where
  amount : Option Int := none
  reason : Option String := none
deriving Repr, DecidableEq

/-- __fields_set__ for CaptureOrder. -/
def CaptureOrderKwargs.setFields (k : CaptureOrderKwargs) : List String :=
  (if k.amount.isSome then ["amount"] else []) ++
  (if k.reason.isSome then ["reason"] else [])

/-- The validated CaptureOrder model (api.py lines 165-167): amount required
with ge=100; reason has default None and max_length 255. -/
structure CaptureOrder where
  amount : Int
  reason : Option String
  fieldsSet : List String
deriving Repr, DecidableEq

/-- CaptureOrder field constraints, in declaration order. -/
def CaptureOrder.checkErr (k : CaptureOrderKwargs) : Option ValidationError :=
  firstErr
    [reqCheck "amount" k.amount (fun a => 100 ≤ a),
     optCheck "reason" k.reason (fun r => r.length ≤ 255)]

/-- Successful CaptureOrder construction. -/
def CaptureOrder.build (k : CaptureOrderKwargs) : CaptureOrder where
  amount := k.amount.getD 0
  reason := k.reason
  fieldsSet := k.setFields

/-- CaptureOrder(**data). -/
def CaptureOrder.validate (k : CaptureOrderKwargs) :
    Except ValidationError CaptureOrder :=
  match CaptureOrder.checkErr k with
  | some e => .error e
  | none => .ok (CaptureOrder.build k)

/-- CaptureOrder .dict(exclude_unset=True). -/
def CaptureOrder.dictExcludeUnset (r : CaptureOrder) : List (String × JsonVal) :=
  (if "amount" ∈ r.fieldsSet then [("amount", JsonVal.int r.amount)] else []) ++
  (if "reason" ∈ r.fieldsSet then (r.reason.map fun s => ("reason", JsonVal.str s)).toList else [])

/-- Keyword arguments of RefundOrder(**data) (api.py lines 288-292). -/
structure RefundOrderKwargs where
  amount : Option Int := none
  reason : Option String := none
  rules : Option (List RefundRule) := none
  positions : Option (List CheckPosition) := none
deriving Repr, DecidableEq

/-- __fields_set__ for RefundOrder. -/
def RefundOrderKwargs.setFields (k : RefundOrderKwargs) : List String :=
  (if k.amount.isSome then ["amount"] else []) ++
  (if k.reason.isSome then ["reason"] else []) ++
  (if k.rules.isSome then ["rules"] else []) ++
  (if k.positions.isSome then ["positions"] else [])

/-- The validated RefundOrder model (api.py lines 288-292): amount required
with ge=100, reason optional with max_length 255, rules and positions
optional typed lists with no further bounds. -/
structure RefundOrder where
  amount : Int
  reason : Option String
  rules : Option (List RefundRule)
  positions : Option (List CheckPosition)
  fieldsSet : List String
deriving Repr, DecidableEq

/-- RefundOrder field constraints, in declaration order. -/
def RefundOrder.checkErr (k : RefundOrderKwargs) : Option ValidationError :=
  firstErr
    [reqCheck "amount" k.amount (fun a => 100 ≤ a),
     optCheck "reason" k.reason (fun r => r.length ≤ 255)]

/-- Successful RefundOrder construction. -/
def RefundOrder.build (k : RefundOrderKwargs) : RefundOrder where
  amount := k.amount.getD 0
  reason := k.reason
  rules := k.rules
  positions := k.positions
  fieldsSet := k.setFields

/-- RefundOrder(**data). -/
def RefundOrder.validate (k : RefundOrderKwargs) :
    Except ValidationError RefundOrder :=
  match RefundOrder.checkErr k with
  | some e => .error e
  | none => .ok (RefundOrder.build k)

/-- RefundOrder .dict(exclude_unset=True). -/
def RefundOrder.dictExcludeUnset (r : RefundOrder) : List (String × JsonVal) :=
  (if "amount" ∈ r.fieldsSet then [("amount", JsonVal.int r.amount)] else []) ++
  (if "reason" ∈ r.fieldsSet then (r.reason.map fun s => ("reason", JsonVal.str s)).toList else []) ++
  (if "rules" ∈ r.fieldsSet then (r.rules.map fun rs => ("rules", JsonVal.ruleList rs)).toList else []) ++
  (if "positions" ∈ r.fieldsSet then (r.positions.map fun ps => ("positions", JsonVal.posList ps)).toList else [])

/-- pydantic SecretStr: wraps the secret; its str/repr is masked. -/
structure SecretStr where
  secretValue : String
deriving Repr, DecidableEq

/-- str()/repr() of a SecretStr masks the value with asterisks. -/
def SecretStr.display (_ : SecretStr) : String := "**********"

/-- SecretStr.get_secret_value. -/
def SecretStr.get_secret_value (s : SecretStr) : String := s.secretValue

/-- A header value is either the SecretStr object placed there by
Api.__init__ or a plain string. -/
inductive HeaderVal where
  | secret (s : SecretStr)
  | plain (s : String)
deriving Repr, DecidableEq

/-- How a header value shows up inside the logged f-string. -/
def HeaderVal.display : HeaderVal → String
  | .secret s => s.display
  | .plain s => s

/-- A Python dict of headers: insertion-ordered key/value pairs with unique
keys. -/
abbrev Headers := List (String × HeaderVal)

/-- dict lookup. -/
def Headers.lookup (hs : Headers) (k : String) : Option HeaderVal :=
  match hs with
  | [] => none
  | (k2, v) :: rest => if k2 = k then some v else Headers.lookup rest k

/-- dict assignment d[k] = v: replace in place if present, else append. -/
def Headers.set (hs : Headers) (k : String) (v : HeaderVal) : Headers :=
  match hs with
  | [] => [(k, v)]
  | (k2, v2) :: rest =>
    if k2 = k then (k2, v) :: rest else (k2, v2) :: Headers.set rest k v

/-- The mutable state of an Api (or Ioka) instance: its configuration and
its headers dict (api.py lines 428-436). -/
structure ApiState where
  api_host : String
  api_key : SecretStr
  version : String
  headers : Headers
deriving Repr, DecidableEq

/-- Api.__init__ (api.py lines 434-436): after pydantic construction the
headers dict is set to hold the SecretStr itself under API-KEY plus the
content type. -/
def Api.init (host : String) (key : SecretStr) (version : String) : ApiState :=
  { api_host := host, api_key := key, version := version,
    headers := [("API-KEY", .secret key),
                ("Content-Type", .plain "application/json")] }

/-- Api.init with the declared defaults api_host = stage endpoint and
version = v2 (api.py lines 429, 431). -/
def Api.initDefault (key : SecretStr) : ApiState :=
  Api.init "https://stage-api.ioka.kz" key "v2"

/-- The transport input of one call: the mocked HTTP response, with its
status code and parsed JSON body. -/
structure MockResponse where
  status : Nat
  jsonBody : String
deriving Repr, DecidableEq

/-- requests.exceptions.HTTPError raised by response.raise_for_status:
carries the status code and the response body. -/
structure HttpError where
  status : Nat
  body : String
deriving Repr, DecidableEq

/-- What Api._request hands back on the non-raising paths: the parsed JSON
body, or the raw response object when raise_for_status is false. -/
inductive ReqReturn where
  | json (body : String)
  | raw (resp : MockResponse)
deriving Repr, DecidableEq

deriving instance DecidableEq for Except

/-- Everything observable about one Api._request call: the request as sent
on the wire, the returned value or HTTPError, the instance state after the
call, and the headers as they appeared in the debug log line. -/
structure RequestOutcome where
  sentMethod : String
  sentUrl : String
  sentHeaders : Headers
  sentParams : Option (List (String × JsonVal))
  result : Except HttpError ReqReturn
  state : ApiState
  loggedHeaders : List (String × String)
deriving Repr, DecidableEq

/-- response.raise_for_status of the requests library raises HTTPError for
client errors (400-499) and server errors (500-599) only. -/
def raisesForStatus (status : Nat) : Bool := 400 ≤ status && status ≤ 599

/-- Api._request (api.py lines 438-476), one call as a state transition.

Line by line: `headers = headers or self.headers` picks self.headers when
the argument is falsy (None or an empty dict) — in that case the dict used
below IS the instance's own dict, so the later assignment mutates instance
state.  The url is `f"{self.api_host}/{self.version}/" + url`.  The debug
log of the outgoing request fires BEFORE `headers["API-KEY"] =
self.api_key.get_secret_value()` overwrites the SecretStr with the
cleartext key.  Then the request is sent; with raise_for_status true a
400-599 status raises HTTPError and otherwise response.json() is returned,
with it false the raw response object is returned.  The params_type switch
(json vs form) only selects the requests keyword and is not modelled. -/
def Api.request (s : ApiState) (method : String) (url : String)
    (params : Option (List (String × JsonVal))) (hdrs : Option Headers)
    (raise_for_status : Bool) (resp : MockResponse) : RequestOutcome :=
  let useSelf : Bool := match hdrs with
    | none => true
    | some [] => true
    | some (_ :: _) => false
  let headers0 : Headers := if useSelf then s.headers else hdrs.getD []
  let fullUrl := s.api_host ++ "/" ++ s.version ++ "/" ++ url
  let logged := headers0.map (fun p => (p.1, p.2.display))
  let headers1 := Headers.set headers0 "API-KEY"
    (.plain s.api_key.get_secret_value)
  let s2 := if useSelf then { s with headers := headers1 } else s
  let result : Except HttpError ReqReturn :=
    if raise_for_status then
      if raisesForStatus resp.status then
        .error { status := resp.status, body := resp.jsonBody }
      else .ok (.json resp.jsonBody)
    else .ok (.raw resp)
  { sentMethod := method, sentUrl := fullUrl, sentHeaders := headers1,
    sentParams := params, result := result, state := s2,
    loggedHeaders := logged }

/-- Api.create_order (api.py lines 479-490): validate through CreateOrder,
then POST to "orders" with the exclude_unset body. -/
def Api.create_order (s : ApiState) (data : CreateOrderKwargs)
    (resp : MockResponse) : Except ValidationError RequestOutcome :=
  match CreateOrder.validate data with
  | .error e => .error e
  | .ok body =>
    .ok (Api.request s "post" "orders" (some body.dictExcludeUnset) none
      true resp)

/-- Api.cancel_order (api.py lines 492-503): `def cancel_order(self,
order_id, **data)` — the order_id argument is consumed by the named
parameter and is used only in the path, while CancelOrder(**data) is
validated from the remaining keywords.  Python's calling convention makes
it impossible for data to also carry order_id (passing it twice is a
TypeError), so in every call reachable from Python data.order_id = none. -/
def Api.cancel_order (s : ApiState) (order_id : String)
    (data : CancelOrderKwargs) (resp : MockResponse) :
    Except ValidationError RequestOutcome :=
  match CancelOrder.validate data with
  | .error e => .error e
  | .ok body =>
    .ok (Api.request s "post" ("orders/" ++ order_id ++ "/cancel")
      (some body.dictExcludeUnset) none true resp)

/-- Api.get_orders (api.py lines 505-515): GET "orders", no params. -/
def Api.get_orders (s : ApiState) (resp : MockResponse) : RequestOutcome :=
  Api.request s "get" "orders" none none true resp

/-- Api.get_order_by_id (api.py lines 517-527). -/
def Api.get_order_by_id (s : ApiState) (order_id : String)
    (resp : MockResponse) : RequestOutcome :=
  Api.request s "get" ("orders/" ++ order_id) none none true resp

/-- Api.capture_order (api.py lines 529-540): validate through CaptureOrder,
then POST to orders/{order_id}/capture. -/
def Api.capture_order (s : ApiState) (order_id : String)
    (data : CaptureOrderKwargs) (resp : MockResponse) :
    Except ValidationError RequestOutcome :=
  match CaptureOrder.validate data with
  | .error e => .error e
  | .ok body =>
    .ok (Api.request s "post" ("orders/" ++ order_id ++ "/capture")
      (some body.dictExcludeUnset) none true resp)

/-- Api.get_order_events (api.py lines 542-552). -/
def Api.get_order_events (s : ApiState) (order_id : String)
    (resp : MockResponse) : RequestOutcome :=
  Api.request s "get" ("orders/" ++ order_id ++ "/events") none none true resp

/-- Api.refund_order (api.py lines 554-564): validate through RefundOrder,
then POST to orders/{order_id}/refunds. -/
def Api.refund_order (s : ApiState) (order_id : String)
    (data : RefundOrderKwargs) (resp : MockResponse) :
    Except ValidationError RequestOutcome :=
  match RefundOrder.validate data with
  | .error e => .error e
  | .ok body =>
    .ok (Api.request s "post" ("orders/" ++ order_id ++ "/refunds")
      (some body.dictExcludeUnset) none true resp)

/-- Api.get_refunds (api.py lines 566-576). -/
def Api.get_refunds (s : ApiState) (order_id : String)
    (resp : MockResponse) : RequestOutcome :=
  Api.request s "get" ("orders/" ++ order_id ++ "/refunds") none none true resp

/-- Api.get_refund_by_id (api.py lines 578-588). -/
def Api.get_refund_by_id (s : ApiState) (order_id refund_id : String)
    (resp : MockResponse) : RequestOutcome :=
  Api.request s "get" ("orders/" ++ order_id ++ "/refunds/" ++ refund_id)
    none none true resp

/-- The Order response record (api.py lines 319-343), as far as its data
fields go.  Response-side constraint checking is not needed by any claim
and is not modelled; the facade methods below use only the id field as the
path parameter. -/
structure OrderRec where
  id : String
  shop_id : String
  status : String
  created_at : String
  amount : Int
  currency : String
  capture_method : String
  external_id : Option String := none
  description : Option String := none
  extra_info : Option (List (String × String)) := none
  attempts : Option Int := some 10
  due_date : Option String := none
  customer_id : Option String := none
  card_id : Option String := none
  mcc : Option String := none
  back_url : Option String := none
  success_url : Option String := none
  failure_url : Option String := none
  template : Option String := none
  checkout_url : Option String := none
  access_token : Option String := none
deriving Repr, DecidableEq

/-- The state of the Order CLASS object.  Order.set_api (api.py lines
345-348) stores the client on the class itself (`cls.api = api`), so there
is exactly one such binding per Python process, shared by every handle to
the Order class, no matter which client instance produced the handle. -/
structure OrderClassState where
  api : Option ApiState := none
deriving Repr, DecidableEq

/-- Order.set_api (api.py lines 345-348): overwrite the class-level binding
and return the class (the very same class object, not a copy). -/
def Order.set_api (_cls : OrderClassState) (api : ApiState) :
    OrderClassState :=
  { api := some api }

/-- The Ioka.order property (api.py lines 591-594): every access rebinds the
Order class to self and hands the class back as the facade. -/
def Ioka.order (self : ApiState) (cls : OrderClassState) : OrderClassState :=
  Order.set_api cls self

/-- Order.capture (api.py lines 400-401): delegate to the class-bound
client with order_id := self.id.  none models the AttributeError raised
when no client was ever bound.  The wrapping of the JSON result into
CaptureOrderResponse happens after the exchange and is not modelled. -/
def Order.capture (cls : OrderClassState) (self : OrderRec)
    (data : CaptureOrderKwargs) (resp : MockResponse) :
    Option (Except ValidationError RequestOutcome) :=
  match cls.api with
  | none => none
  | some api => some (Api.capture_order api self.id data resp)

/-- Order.get_events (api.py lines 403-404): delegate to the class-bound
client with order_id := self.id. -/
def Order.get_events (cls : OrderClassState) (self : OrderRec)
    (resp : MockResponse) : Option RequestOutcome :=
  match cls.api with
  | none => none
  | some api => some (Api.get_order_events api self.id resp)

/-- The decimal digit character for d in 0..9 (any larger argument also
yields a digit, which keeps rendered strings digit-only). -/
def digitChar : Nat → Char
  | 0 => '0'
  | 1 => '1'
  | 2 => '2'
  | 3 => '3'
  | 4 => '4'
  | 5 => '5'
  | 6 => '6'
  | 7 => '7'
  | 8 => '8'
  | _ => '9'

/-- The numeric value of a decimal digit character. -/
def digitVal (c : Char) : Nat := c.toNat - 48

/-- Fixed-width zero-padded decimal rendering, most significant digit
first: the digit strings appearing in datetime.isoformat output. -/
def renderDigits : Nat → Nat → List Char
  | 0, _ => []
  | k + 1, n => digitChar (n / 10 ^ k) :: renderDigits k (n % 10 ^ k)

/-- Consume exactly k digit characters, most significant first. -/
def parseExactAux : Nat → Nat → List Char → Option (Nat × List Char)
  | 0, acc, cs => some (acc, cs)
  | _ + 1, _, [] => none
  | k + 1, acc, c :: cs =>
    if c.isDigit then parseExactAux k (acc * 10 + digitVal c) cs else none

/-- Parse a fixed-width decimal number. -/
def parseExact (k : Nat) (cs : List Char) : Option (Nat × List Char) :=
  parseExactAux k 0 cs

/-- Consume one expected punctuation character. -/
def expectChar (c : Char) : List Char → Option (List Char)
  | [] => none
  | x :: xs => if x = c then some xs else none

/-- The Gregorian leap year rule used by the datetime module. -/
def isLeapYear (y : Nat) : Bool := (y % 4 = 0 && y % 100 != 0) || y % 400 = 0

/-- Days in a month, as enforced by the datetime constructor. -/
def daysInMonth (y m : Nat) : Nat :=
  if m = 2 then (if isLeapYear y then 29 else 28)
  else if m = 4 || m = 6 || m = 9 || m = 11 then 30
  else 31

/-- A Python datetime.datetime value: clock components plus an optional
fixed timezone offset in minutes (tzinfo); none is a naive datetime. -/
structure PyDatetime where
  year : Nat
  month : Nat
  day : Nat
  hour : Nat
  minute : Nat
  second : Nat
  microsecond : Nat
  tzOffsetMinutes : Option Int
deriving Repr, DecidableEq

/-- The yyyy-mm-dd and hh:mm:ss range constraints the datetime constructor
enforces. -/
def dateOk (y mo dy : Nat) : Bool :=
  1 ≤ y && y ≤ 9999 && 1 ≤ mo && mo ≤ 12 && 1 ≤ dy && dy ≤ daysInMonth y mo

/-- The ±hh:mm suffix isoformat appends for an aware datetime. -/
def offsetSuffix : Option Int → List Char
  | none => []
  | some m =>
    (if m < 0 then '-' else '+') ::
      (renderDigits 2 (m.natAbs / 60) ++ ':' :: renderDigits 2 (m.natAbs % 60))

/-- datetime.isoformat as a character list:
yyyy-mm-ddThh:mm:ss[.ffffff][±hh:mm], the fraction present only when the
microsecond field is nonzero, the offset only for an aware value. -/
def PyDatetime.isoformatChars (d : PyDatetime) : List Char :=
  renderDigits 4 d.year ++ '-' :: renderDigits 2 d.month ++
    '-' :: renderDigits 2 d.day ++
  'T' :: renderDigits 2 d.hour ++ ':' :: renderDigits 2 d.minute ++
    ':' :: renderDigits 2 d.second ++
  (if d.microsecond = 0 then [] else '.' :: renderDigits 6 d.microsecond) ++
  offsetSuffix d.tzOffsetMinutes

/-- datetime.isoformat. -/
def PyDatetime.isoformat (d : PyDatetime) : String :=
  String.mk d.isoformatChars

/-- The tail of a numeric utc offset: hh:mm, nothing may follow. -/
def parseNumOffset (neg : Bool) (cs : List Char) : Option (Option Int) := do
  let (oh, cs) ← parseExact 2 cs
  let cs ← expectChar ':' cs
  let (om, cs) ← parseExact 2 cs
  match cs with
  | [] =>
    if oh ≤ 23 && om ≤ 59 then
      some (some (if neg then -((oh * 60 + om : Nat) : Int)
        else ((oh * 60 + om : Nat) : Int)))
    else none
  | _ :: _ => none

/-- The optional timezone offset closing an isoformat string. -/
def parseOffsetTail (cs : List Char) : Option (Option Int) :=
  match cs with
  | [] => some none
  | c :: rest =>
    if c = '+' then parseNumOffset false rest
    else if c = '-' then parseNumOffset true rest
    else none

/-- The optional fractional-seconds part: a dot followed by the canonical
six digits of microseconds, or nothing. -/
def parseFracTail (cs : List Char) : Option (Nat × List Char) :=
  match cs with
  | c :: rest => if c = '.' then parseExact 6 rest else some (0, c :: rest)
  | [] => some (0, [])

/-- Model of datetime.fromisoformat on the isoformat grammar
yyyy-mm-dd[<sep>hh:mm:ss[.ffffff][±hh:mm]]: positional parse of the date,
one separator character of any value (CPython slices by position), the
clock, the canonical six-digit fraction and the optional offset, with the
constructor's range checks at the end.  A none result models the
ValueError raised on malformed input. -/
def fromisoformatChars (cs : List Char) : Option PyDatetime := do
  let (y, cs) ← parseExact 4 cs
  let cs ← expectChar '-' cs
  let (mo, cs) ← parseExact 2 cs
  let cs ← expectChar '-' cs
  let (dy, cs) ← parseExact 2 cs
  match cs with
  | [] =>
    if dateOk y mo dy then
      some { year := y, month := mo, day := dy, hour := 0, minute := 0,
             second := 0, microsecond := 0, tzOffsetMinutes := none }
    else none
  | _sep :: cs => do
    let (h, cs) ← parseExact 2 cs
    let cs ← expectChar ':' cs
    let (mi, cs) ← parseExact 2 cs
    let cs ← expectChar ':' cs
    let (se, cs) ← parseExact 2 cs
    let (f, cs) ← parseFracTail cs
    let tz ← parseOffsetTail cs
    if dateOk y mo dy && h ≤ 23 && mi ≤ 59 && se ≤ 59 then
      some { year := y, month := mo, day := dy, hour := h, minute := mi,
             second := se, microsecond := f, tzOffsetMinutes := tz }
    else none

/-- A Python value arriving at the validator: a string, a datetime, or
anything else (modelled by a description tag). -/
inductive PyValue where
  | str (s : String)
  | dt (d : PyDatetime)
  | other (descr : String)
deriving Repr, DecidableEq

/-- The exceptions ISODatetime.validate can raise. -/
inductive PyError where
  | typeError
  | valueError
deriving Repr, DecidableEq

/-- v.replace("Z", "") for the one-character pattern "Z": every Z is
removed (the code replaces all occurrences, not only a trailing one; on a
well-formed timestamp the two coincide because Z can only close it). -/
def removeZ (cs : List Char) : List Char := cs.filter (fun c => c != 'Z')

/-- ISODatetime.validate (api.py lines 22-31): a string is parsed with
fromisoformat after removing Z; a datetime passes through; anything else
raises TypeError.  The accepted value is re-serialized by
dt.replace(tzinfo=None).isoformat(). -/
def ISODatetime.validate (v : PyValue) : Except PyError String :=
  match v with
  | .str s =>
    match fromisoformatChars (removeZ s.toList) with
    | some d => .ok (PyDatetime.isoformat { d with tzOffsetMinutes := none })
    | none => .error .valueError
  | .dt d => .ok (PyDatetime.isoformat { d with tzOffsetMinutes := none })
  | .other _ => .error .typeError

/-- The timezone designator of a canonical ISO-8601/RFC-3339 timestamp:
absent (ISO-8601 local time), the UTC letter Z, or a numeric offset. -/
inductive TZSpec where
  | naive
  | utcZ
  | offset (neg : Bool) (oh om : Nat)
deriving Repr, DecidableEq

/-- Rendered timezone designator. -/
def TZSpec.renderChars : TZSpec → List Char
  | .naive => []
  | .utcZ => ['Z']
  | .offset neg oh om =>
    (if neg then '-' else '+') :: (renderDigits 2 oh ++ ':' :: renderDigits 2 om)

/-- The components of a canonical ISO-8601/RFC-3339 timestamp string
yyyy-mm-ddThh:mm:ss[.ffffff][Z|±hh:mm] (seconds present, fraction in its
canonical six-digit form when present). -/
structure TSInput where
  year : Nat
  month : Nat
  day : Nat
  hour : Nat
  minute : Nat
  second : Nat
  frac : Option Nat
  tz : TZSpec
deriving Repr, DecidableEq

/-- Render the timestamp as its canonical string. -/
def TSInput.renderChars (t : TSInput) : List Char :=
  renderDigits 4 t.year ++ '-' :: renderDigits 2 t.month ++
    '-' :: renderDigits 2 t.day ++
  'T' :: renderDigits 2 t.hour ++ ':' :: renderDigits 2 t.minute ++
    ':' :: renderDigits 2 t.second ++
  (match t.frac with | none => [] | some f => '.' :: renderDigits 6 f) ++
  t.tz.renderChars

/-- Render the timestamp as a String. -/
def TSInput.render (t : TSInput) : String := String.mk t.renderChars

/-- Component ranges of a valid timestamp (representable as a datetime:
leap seconds excluded, offsets below a day). -/
def TSInput.validB (t : TSInput) : Bool :=
  1 ≤ t.year && t.year ≤ 9999 && 1 ≤ t.month && t.month ≤ 12 &&
  1 ≤ t.day && t.day ≤ daysInMonth t.year t.month &&
  t.hour ≤ 23 && t.minute ≤ 59 && t.second ≤ 59 &&
  (match t.frac with | none => true | some f => f < 1000000) &&
  (match t.tz with | .offset _ oh om => oh ≤ 23 && om ≤ 59 | _ => true)

/-- The tzinfo value fromisoformat assigns for each rendered designator
(after the Z-removal of the validator, Z behaves like a naive input). -/
def TZSpec.tzVal : TZSpec → Option Int
  | .naive => none
  | .utcZ => none
  | .offset neg oh om =>
    some (if neg then -((oh * 60 + om : Nat) : Int) else ((oh * 60 + om : Nat) : Int))

/-- What the spec demands of the serialized body: exactly the fields the
caller supplied, in declaration order, with the supplied values — no
defaults injected for unsupplied fields. -/
def createOrderSuppliedPayload (k : CreateOrderKwargs) : List (String × JsonVal) :=
  (k.amount.map fun x => ("amount", JsonVal.int x)).toList ++
  (k.currency.map fun x => ("currency", JsonVal.str x)).toList ++
  (k.capture_method.map fun x => ("capture_method", JsonVal.str x)).toList ++
  (k.external_id.map fun x => ("external_id", JsonVal.str x)).toList ++
  (k.description.map fun x => ("description", JsonVal.str x)).toList ++
  (k.mcc.map fun x => ("mcc", JsonVal.str x)).toList ++
  (k.extra_info.map fun x => ("extra_info", JsonVal.strDict x)).toList ++
  (k.attempts.map fun x => ("attempts", JsonVal.int x)).toList ++
  (k.due_date.map fun x => ("due_date", JsonVal.str x)).toList ++
  (k.customer_id.map fun x => ("customer_id", JsonVal.str x)).toList ++
  (k.card_id.map fun x => ("card_id", JsonVal.str x)).toList ++
  (k.back_url.map fun x => ("back_url", JsonVal.str x)).toList ++
  (k.success_url.map fun x => ("success_url", JsonVal.str x)).toList ++
  (k.failure_url.map fun x => ("failure_url", JsonVal.str x)).toList ++
  (k.template.map fun x => ("template", JsonVal.str x)).toList

/-- Spec-side payload for CancelOrder. -/
def cancelOrderSuppliedPayload (k : CancelOrderKwargs) : List (String × JsonVal) :=
  (k.order_id.map fun x => ("order_id", JsonVal.str x)).toList ++
  (k.reason.map fun x => ("reason", JsonVal.str x)).toList

/-- Spec-side payload for CaptureOrder. -/
def captureOrderSuppliedPayload (k : CaptureOrderKwargs) : List (String × JsonVal) :=
  (k.amount.map fun x => ("amount", JsonVal.int x)).toList ++
  (k.reason.map fun x => ("reason", JsonVal.str x)).toList

/-- Spec-side payload for RefundOrder. -/
def refundOrderSuppliedPayload (k : RefundOrderKwargs) : List (String × JsonVal) :=
  (k.amount.map fun x => ("amount", JsonVal.int x)).toList ++
  (k.reason.map fun x => ("reason", JsonVal.str x)).toList ++
  (k.rules.map fun x => ("rules", JsonVal.ruleList x)).toList ++
  (k.positions.map fun x => ("positions", JsonVal.posList x)).toList

example : CreateOrder.checkErr { amount := some 100 } = none := by decide
example : CreateOrder.checkErr { amount := some 99 } =
    some (.bound "amount") := by decide
example : CreateOrder.checkErr { amount := some 100, mcc := some "123" } =
    some (.bound "mcc") := by decide

example : ISODatetime.validate (.str "2022-03-18T12:00:00Z") =
    .ok "2022-03-18T12:00:00" := by decide
example : ISODatetime.validate (.str "2019-08-24T14:15:22.500000+05:00") =
    .ok "2019-08-24T14:15:22.500000" := by decide
example : ISODatetime.validate (.str "not a date") = .error .valueError := by
  decide
example : ISODatetime.validate (.other "int 3") = .error .typeError := by
  decide

lemma digitChar_isDigit (q : Nat) : (digitChar q).isDigit = true := by
  unfold digitChar
  split <;> decide

lemma digitVal_digitChar : ∀ q < 10, digitVal (digitChar q) = q := by decide

lemma digitChar_lt_ten_isDigit : ∀ q < 10, (digitChar q).isDigit = true := by
  decide

lemma parseExactAux_render (k : Nat) : ∀ (acc n : Nat) (cs : List Char),
    n < 10 ^ k →
    parseExactAux k acc (renderDigits k n ++ cs) =
      some (acc * 10 ^ k + n, cs) := by
  induction k with
  | zero =>
    intro acc n cs h
    interval_cases n
    simp [renderDigits, parseExactAux]
  | succ k ih =>
    intro acc n cs h
    have hq : n / 10 ^ k < 10 := by
      rw [Nat.div_lt_iff_lt_mul (Nat.pos_pow_of_pos k (by norm_num))]
      calc n < 10 ^ (k + 1) := h
        _ = 10 ^ k * 10 := by rw [pow_succ]
        _ ≤ 10 * 10 ^ k := by rw [Nat.mul_comm]
    have hr : n % 10 ^ k < 10 ^ k :=
      Nat.mod_lt _ (Nat.pos_pow_of_pos k (by norm_num))
    have hdm : 10 ^ k * (n / 10 ^ k) + n % 10 ^ k = n := Nat.div_add_mod n _
    simp only [renderDigits, List.cons_append, parseExactAux,
      digitChar_isDigit, if_true, digitVal_digitChar _ hq]
    rw [List.append_eq, ih _ _ _ hr]
    have key : (acc * 10 + n / 10 ^ k) * 10 ^ k + n % 10 ^ k =
        acc * 10 ^ (k + 1) + n := by
      calc (acc * 10 + n / 10 ^ k) * 10 ^ k + n % 10 ^ k
          = acc * (10 ^ k * 10) + (10 ^ k * (n / 10 ^ k) + n % 10 ^ k) := by
            ring
        _ = acc * 10 ^ (k + 1) + n := by rw [hdm, ← pow_succ]
    rw [key]

lemma parseExact_render (k n : Nat) (h : n < 10 ^ k) (cs : List Char) :
    parseExact k (renderDigits k n ++ cs) = some (n, cs) := by
  have := parseExactAux_render k 0 n cs h
  simpa [parseExact] using this

lemma parseExact_render_nil (k n : Nat) (h : n < 10 ^ k) :
    parseExact k (renderDigits k n) = some (n, []) := by
  have := parseExact_render k n h []
  simpa using this

lemma expectChar_cons (c : Char) (cs : List Char) :
    expectChar c (c :: cs) = some cs := by
  simp [expectChar]

lemma mem_renderDigits_isDigit (k : Nat) : ∀ (n : Nat) (c : Char),
    c ∈ renderDigits k n → c.isDigit = true := by
  induction k with
  | zero => intro n c h; simp [renderDigits] at h
  | succ k ih =>
    intro n c h
    simp only [renderDigits, List.mem_cons] at h
    rcases h with h | h
    · rw [h]; exact digitChar_isDigit _
    · exact ih _ _ h

lemma isDigit_ne_Z {c : Char} (h : c.isDigit = true) : c ≠ 'Z' := by
  intro he
  rw [he] at h
  exact absurd h (by decide)

lemma removeZ_eq_self {cs : List Char} (h : ∀ c ∈ cs, c ≠ 'Z') :
    removeZ cs = cs := by
  unfold removeZ
  rw [List.filter_eq_self]
  intro c hc
  simpa using h c hc

lemma removeZ_append (cs ds : List Char) :
    removeZ (cs ++ ds) = removeZ cs ++ removeZ ds := by
  simp [removeZ]

lemma removeZ_renderDigits (k n : Nat) :
    removeZ (renderDigits k n) = renderDigits k n :=
  removeZ_eq_self (fun c hc => isDigit_ne_Z (mem_renderDigits_isDigit k n c hc))

lemma removeZ_nil : removeZ [] = [] := rfl

lemma removeZ_cons (c : Char) (cs : List Char) :
    removeZ (c :: cs) = if c = 'Z' then removeZ cs else c :: removeZ cs := by
  by_cases h : c = 'Z' <;> simp [removeZ, List.filter_cons, h]

lemma daysInMonth_le_31 (y m : Nat) : daysInMonth y m ≤ 31 := by
  unfold daysInMonth
  split
  · split <;> omega
  · split <;> omega

lemma renderChars_parse (t : TSInput) (hv : t.validB = true) :
    fromisoformatChars (removeZ t.renderChars) =
      some { year := t.year, month := t.month, day := t.day, hour := t.hour,
             minute := t.minute, second := t.second,
             microsecond := t.frac.getD 0, tzOffsetMinutes := t.tz.tzVal } := by
  obtain ⟨y, mo, dy, h, mi, se, fr, tz⟩ := t
  have h4 : (10 : Nat) ^ 4 = 10000 := by norm_num
  have h2 : (10 : Nat) ^ 2 = 100 := by norm_num
  have h6 : (10 : Nat) ^ 6 = 1000000 := by norm_num
  rcases fr with _ | f <;> rcases tz with _ | _ | ⟨neg, oh, om⟩ <;>
    simp only [TSInput.validB, Bool.and_eq_true, decide_eq_true_eq] at hv
  all_goals obtain ⟨⟨hcore, hfrac⟩, htz⟩ := hv
  all_goals obtain ⟨⟨⟨⟨⟨⟨⟨⟨hy1, hy2⟩, hmo1⟩, hmo2⟩, hdy1⟩, hdy2⟩, hh⟩, hmi⟩, hse⟩ := hcore
  all_goals have hylt : y < 10000 := by omega
  all_goals have hmolt : mo < 100 := by omega
  all_goals have hdylt : dy < 100 := by have h31 := daysInMonth_le_31 y mo; omega
  all_goals have hhlt : h < 100 := by omega
  all_goals have hmilt : mi < 100 := by omega
  all_goals have hselt : se < 100 := by omega
  · simp [TSInput.renderChars, TZSpec.renderChars, TZSpec.tzVal,
      removeZ_append, removeZ_cons, removeZ_nil, removeZ_renderDigits,
      fromisoformatChars, parseExact_render, parseExact_render_nil,
      expectChar_cons, parseFracTail,
      parseOffsetTail, parseNumOffset, Option.bind, dateOk,
      hy1, hy2, hmo1, hmo2, hdy1, hdy2, hh, hmi, hse,
      hylt, hmolt, hdylt, hhlt, hmilt, hselt]
  · simp [TSInput.renderChars, TZSpec.renderChars, TZSpec.tzVal,
      removeZ_append, removeZ_cons, removeZ_nil, removeZ_renderDigits,
      fromisoformatChars, parseExact_render, parseExact_render_nil,
      expectChar_cons, parseFracTail,
      parseOffsetTail, parseNumOffset, Option.bind, dateOk,
      hy1, hy2, hmo1, hmo2, hdy1, hdy2, hh, hmi, hse,
      hylt, hmolt, hdylt, hhlt, hmilt, hselt]
  · obtain ⟨hoh, hom⟩ := htz
    have hohlt : oh < 100 := by omega
    have homlt : om < 100 := by omega
    cases neg <;>
    simp [TSInput.renderChars, TZSpec.renderChars, TZSpec.tzVal,
      removeZ_append, removeZ_cons, removeZ_nil, removeZ_renderDigits,
      fromisoformatChars, parseExact_render, parseExact_render_nil,
      expectChar_cons, parseFracTail,
      parseOffsetTail, parseNumOffset, Option.bind, dateOk,
      hy1, hy2, hmo1, hmo2, hdy1, hdy2, hh, hmi, hse,
      hylt, hmolt, hdylt, hhlt, hmilt, hselt,
      hoh, hom, hohlt, homlt]
  · have hflt : f < 1000000 := hfrac
    simp [TSInput.renderChars, TZSpec.renderChars, TZSpec.tzVal,
      removeZ_append, removeZ_cons, removeZ_nil, removeZ_renderDigits,
      fromisoformatChars, parseExact_render, parseExact_render_nil,
      expectChar_cons, parseFracTail,
      parseOffsetTail, parseNumOffset, Option.bind, dateOk,
      hy1, hy2, hmo1, hmo2, hdy1, hdy2, hh, hmi, hse,
      hylt, hmolt, hdylt, hhlt, hmilt, hselt,
      hflt]
  · have hflt : f < 1000000 := hfrac
    simp [TSInput.renderChars, TZSpec.renderChars, TZSpec.tzVal,
      removeZ_append, removeZ_cons, removeZ_nil, removeZ_renderDigits,
      fromisoformatChars, parseExact_render, parseExact_render_nil,
      expectChar_cons, parseFracTail,
      parseOffsetTail, parseNumOffset, Option.bind, dateOk,
      hy1, hy2, hmo1, hmo2, hdy1, hdy2, hh, hmi, hse,
      hylt, hmolt, hdylt, hhlt, hmilt, hselt,
      hflt]
  · have hflt : f < 1000000 := hfrac
    obtain ⟨hoh, hom⟩ := htz
    have hohlt : oh < 100 := by omega
    have homlt : om < 100 := by omega
    cases neg <;>
    simp [TSInput.renderChars, TZSpec.renderChars, TZSpec.tzVal,
      removeZ_append, removeZ_cons, removeZ_nil, removeZ_renderDigits,
      fromisoformatChars, parseExact_render, parseExact_render_nil,
      expectChar_cons, parseFracTail,
      parseOffsetTail, parseNumOffset, Option.bind, dateOk,
      hy1, hy2, hmo1, hmo2, hdy1, hdy2, hh, hmi, hse,
      hylt, hmolt, hdylt, hhlt, hmilt, hselt,
      hflt, hoh, hom, hohlt, homlt]

lemma mem_ite_singleton (a b : String) (c : Prop) [Decidable c] :
    a ∈ (if c then [b] else ([] : List String)) ↔ c ∧ a = b := by
  split <;> simp_all

lemma ite_isSome_getD {α β : Type} (v : Option α) (P : Prop) [Decidable P]
    (name : String) (enc : α → β) (d : α) (h : P ↔ v.isSome = true) :
    (if P then [(name, enc (v.getD d))] else []) =
      (v.map fun x => (name, enc x)).toList := by
  cases v <;> simp_all

lemma ite_isSome_opt {α β : Type} (v : Option α) (P : Prop) [Decidable P]
    (f : α → β) (h : P ↔ v.isSome = true) :
    (if P then (v.map f).toList else []) = (v.map f).toList := by
  cases v <;> simp_all

lemma setFields_mem_amount (k : CreateOrderKwargs) :
    ("amount" ∈ k.setFields) ↔ k.amount.isSome = true := by
  simp [CreateOrderKwargs.setFields, List.mem_append, mem_ite_singleton]

lemma setFields_mem_currency (k : CreateOrderKwargs) :
    ("currency" ∈ k.setFields) ↔ k.currency.isSome = true := by
  simp [CreateOrderKwargs.setFields, List.mem_append, mem_ite_singleton]

lemma setFields_mem_capture_method (k : CreateOrderKwargs) :
    ("capture_method" ∈ k.setFields) ↔ k.capture_method.isSome = true := by
  simp [CreateOrderKwargs.setFields, List.mem_append, mem_ite_singleton]

lemma setFields_mem_external_id (k : CreateOrderKwargs) :
    ("external_id" ∈ k.setFields) ↔ k.external_id.isSome = true := by
  simp [CreateOrderKwargs.setFields, List.mem_append, mem_ite_singleton]

lemma setFields_mem_description (k : CreateOrderKwargs) :
    ("description" ∈ k.setFields) ↔ k.description.isSome = true := by
  simp [CreateOrderKwargs.setFields, List.mem_append, mem_ite_singleton]

lemma setFields_mem_mcc (k : CreateOrderKwargs) :
    ("mcc" ∈ k.setFields) ↔ k.mcc.isSome = true := by
  simp [CreateOrderKwargs.setFields, List.mem_append, mem_ite_singleton]

lemma setFields_mem_extra_info (k : CreateOrderKwargs) :
    ("extra_info" ∈ k.setFields) ↔ k.extra_info.isSome = true := by
  simp [CreateOrderKwargs.setFields, List.mem_append, mem_ite_singleton]

lemma setFields_mem_attempts (k : CreateOrderKwargs) :
    ("attempts" ∈ k.setFields) ↔ k.attempts.isSome = true := by
  simp [CreateOrderKwargs.setFields, List.mem_append, mem_ite_singleton]

lemma setFields_mem_due_date (k : CreateOrderKwargs) :
    ("due_date" ∈ k.setFields) ↔ k.due_date.isSome = true := by
  simp [CreateOrderKwargs.setFields, List.mem_append, mem_ite_singleton]

lemma setFields_mem_customer_id (k : CreateOrderKwargs) :
    ("customer_id" ∈ k.setFields) ↔ k.customer_id.isSome = true := by
  simp [CreateOrderKwargs.setFields, List.mem_append, mem_ite_singleton]

lemma setFields_mem_card_id (k : CreateOrderKwargs) :
    ("card_id" ∈ k.setFields) ↔ k.card_id.isSome = true := by
  simp [CreateOrderKwargs.setFields, List.mem_append, mem_ite_singleton]

lemma setFields_mem_back_url (k : CreateOrderKwargs) :
    ("back_url" ∈ k.setFields) ↔ k.back_url.isSome = true := by
  simp [CreateOrderKwargs.setFields, List.mem_append, mem_ite_singleton]

lemma setFields_mem_success_url (k : CreateOrderKwargs) :
    ("success_url" ∈ k.setFields) ↔ k.success_url.isSome = true := by
  simp [CreateOrderKwargs.setFields, List.mem_append, mem_ite_singleton]

lemma setFields_mem_failure_url (k : CreateOrderKwargs) :
    ("failure_url" ∈ k.setFields) ↔ k.failure_url.isSome = true := by
  simp [CreateOrderKwargs.setFields, List.mem_append, mem_ite_singleton]

lemma setFields_mem_template (k : CreateOrderKwargs) :
    ("template" ∈ k.setFields) ↔ k.template.isSome = true := by
  simp [CreateOrderKwargs.setFields, List.mem_append, mem_ite_singleton]

lemma cancelSetFields_mem_order_id (k : CancelOrderKwargs) :
    ("order_id" ∈ k.setFields) ↔ k.order_id.isSome = true := by
  simp [CancelOrderKwargs.setFields, List.mem_append, mem_ite_singleton]

lemma cancelSetFields_mem_reason (k : CancelOrderKwargs) :
    ("reason" ∈ k.setFields) ↔ k.reason.isSome = true := by
  simp [CancelOrderKwargs.setFields, List.mem_append, mem_ite_singleton]

lemma captureSetFields_mem_amount (k : CaptureOrderKwargs) :
    ("amount" ∈ k.setFields) ↔ k.amount.isSome = true := by
  simp [CaptureOrderKwargs.setFields, List.mem_append, mem_ite_singleton]

lemma captureSetFields_mem_reason (k : CaptureOrderKwargs) :
    ("reason" ∈ k.setFields) ↔ k.reason.isSome = true := by
  simp [CaptureOrderKwargs.setFields, List.mem_append, mem_ite_singleton]

lemma refundSetFields_mem_amount (k : RefundOrderKwargs) :
    ("amount" ∈ k.setFields) ↔ k.amount.isSome = true := by
  simp [RefundOrderKwargs.setFields, List.mem_append, mem_ite_singleton]

lemma refundSetFields_mem_reason (k : RefundOrderKwargs) :
    ("reason" ∈ k.setFields) ↔ k.reason.isSome = true := by
  simp [RefundOrderKwargs.setFields, List.mem_append, mem_ite_singleton]

lemma refundSetFields_mem_rules (k : RefundOrderKwargs) :
    ("rules" ∈ k.setFields) ↔ k.rules.isSome = true := by
  simp [RefundOrderKwargs.setFields, List.mem_append, mem_ite_singleton]

lemma refundSetFields_mem_positions (k : RefundOrderKwargs) :
    ("positions" ∈ k.setFields) ↔ k.positions.isSome = true := by
  simp [RefundOrderKwargs.setFields, List.mem_append, mem_ite_singleton]

/-- The serialized CreateOrder body contains exactly the supplied fields. -/
lemma createOrder_dict_build (k : CreateOrderKwargs) :
    (CreateOrder.build k).dictExcludeUnset = createOrderSuppliedPayload k := by
  simp only [CreateOrder.dictExcludeUnset, CreateOrder.build,
    createOrderSuppliedPayload,
    ite_isSome_getD _ _ _ _ _ (setFields_mem_amount k),
    ite_isSome_getD _ _ _ _ _ (setFields_mem_external_id k),
    ite_isSome_getD _ _ _ _ _ (setFields_mem_attempts k),
    ite_isSome_opt _ _ _ (setFields_mem_currency k),
    ite_isSome_opt _ _ _ (setFields_mem_capture_method k),
    ite_isSome_opt _ _ _ (setFields_mem_description k),
    ite_isSome_opt _ _ _ (setFields_mem_mcc k),
    ite_isSome_opt _ _ _ (setFields_mem_extra_info k),
    ite_isSome_opt _ _ _ (setFields_mem_due_date k),
    ite_isSome_opt _ _ _ (setFields_mem_customer_id k),
    ite_isSome_opt _ _ _ (setFields_mem_card_id k),
    ite_isSome_opt _ _ _ (setFields_mem_back_url k),
    ite_isSome_opt _ _ _ (setFields_mem_success_url k),
    ite_isSome_opt _ _ _ (setFields_mem_failure_url k),
    ite_isSome_opt _ _ _ (setFields_mem_template k)]

/-- The serialized CancelOrder body contains exactly the supplied fields. -/
lemma cancelOrder_dict_build (k : CancelOrderKwargs) :
    (CancelOrder.build k).dictExcludeUnset = cancelOrderSuppliedPayload k := by
  simp only [CancelOrder.dictExcludeUnset, CancelOrder.build,
    cancelOrderSuppliedPayload,
    ite_isSome_getD _ _ _ _ _ (cancelSetFields_mem_order_id k),
    ite_isSome_getD _ _ _ _ _ (cancelSetFields_mem_reason k)]

/-- The serialized CaptureOrder body contains exactly the supplied fields. -/
lemma captureOrder_dict_build (k : CaptureOrderKwargs) :
    (CaptureOrder.build k).dictExcludeUnset = captureOrderSuppliedPayload k := by
  simp only [CaptureOrder.dictExcludeUnset, CaptureOrder.build,
    captureOrderSuppliedPayload,
    ite_isSome_getD _ _ _ _ _ (captureSetFields_mem_amount k),
    ite_isSome_opt _ _ _ (captureSetFields_mem_reason k)]

/-- The serialized RefundOrder body contains exactly the supplied fields. -/
lemma refundOrder_dict_build (k : RefundOrderKwargs) :
    (RefundOrder.build k).dictExcludeUnset = refundOrderSuppliedPayload k := by
  simp only [RefundOrder.dictExcludeUnset, RefundOrder.build,
    refundOrderSuppliedPayload,
    ite_isSome_getD _ _ _ _ _ (refundSetFields_mem_amount k),
    ite_isSome_opt _ _ _ (refundSetFields_mem_reason k),
    ite_isSome_opt _ _ _ (refundSetFields_mem_rules k),
    ite_isSome_opt _ _ _ (refundSetFields_mem_positions k)]

lemma optCheck_eq_none {α : Type} (field : String) (v : Option α)
    (ok : α → Bool) :
    optCheck field v ok = none ↔ ∀ x, v = some x → ok x = true := by
  cases v with
  | none => simp [optCheck]
  | some x => simp only [optCheck]; split <;> simp_all

lemma reqCheck_eq_none {α : Type} (field : String) (v : Option α)
    (ok : α → Bool) :
    reqCheck field v ok = none ↔ ∃ x, v = some x ∧ ok x = true := by
  cases v with
  | none => simp [reqCheck]
  | some x => simp only [reqCheck]; split <;> simp_all

lemma firstErr_eq_none (l : List (Option ValidationError)) :
    firstErr l = none ↔ ∀ x ∈ l, x = none := by
  induction l with
  | nil => simp [firstErr]
  | cons x rest ih => cases x <;> simp [firstErr, ih]

lemma createOrder_checkErr_none (k : CreateOrderKwargs) :
    CreateOrder.checkErr k = none ↔
      ((∃ a, k.amount = some a ∧ 100 ≤ a) ∧
       (∀ c, k.currency = some c → c ∈ currencyValues) ∧
       (∀ c, k.capture_method = some c → c ∈ captureMethodValues) ∧
       (∀ e, k.external_id = some e → 1 ≤ e.length) ∧
       (∀ m, k.mcc = some m → m.length = 4) ∧
       (∀ a, k.attempts = some a → 1 ≤ a ∧ a ≤ 50) ∧
       (∀ c, k.customer_id = some c → 1 ≤ c.length) ∧
       (∀ c, k.card_id = some c → 1 ≤ c.length) ∧
       (∀ u, k.back_url = some u → isHttpUrl u = true) ∧
       (∀ u, k.success_url = some u → isHttpUrl u = true) ∧
       (∀ u, k.failure_url = some u → isHttpUrl u = true)) := by
  simp [CreateOrder.checkErr, firstErr_eq_none, optCheck_eq_none,
    reqCheck_eq_none, List.elem_iff, Bool.and_eq_true]

lemma cancelOrder_checkErr_none (k : CancelOrderKwargs) :
    CancelOrder.checkErr k = none ↔
      ((∃ o, k.order_id = some o) ∧
       (∃ r, k.reason = some r ∧ r.length ≤ 255)) := by
  simp [CancelOrder.checkErr, firstErr_eq_none, reqCheck_eq_none]

lemma captureOrder_checkErr_none (k : CaptureOrderKwargs) :
    CaptureOrder.checkErr k = none ↔
      ((∃ a, k.amount = some a ∧ 100 ≤ a) ∧
       (∀ r, k.reason = some r → r.length ≤ 255)) := by
  simp [CaptureOrder.checkErr, firstErr_eq_none, optCheck_eq_none,
    reqCheck_eq_none]

lemma refundOrder_checkErr_none (k : RefundOrderKwargs) :
    RefundOrder.checkErr k = none ↔
      ((∃ a, k.amount = some a ∧ 100 ≤ a) ∧
       (∀ r, k.reason = some r → r.length ≤ 255)) := by
  simp [RefundOrder.checkErr, firstErr_eq_none, optCheck_eq_none,
    reqCheck_eq_none]

lemma createOrder_validate_ok_iff (k : CreateOrderKwargs) (r : CreateOrder) :
    CreateOrder.validate k = .ok r ↔
      CreateOrder.checkErr k = none ∧ r = CreateOrder.build k := by
  cases hc : CreateOrder.checkErr k <;> simp [CreateOrder.validate, hc, eq_comm]

lemma cancelOrder_validate_ok_iff (k : CancelOrderKwargs) (r : CancelOrder) :
    CancelOrder.validate k = .ok r ↔
      CancelOrder.checkErr k = none ∧ r = CancelOrder.build k := by
  cases hc : CancelOrder.checkErr k <;> simp [CancelOrder.validate, hc, eq_comm]

lemma captureOrder_validate_ok_iff (k : CaptureOrderKwargs) (r : CaptureOrder) :
    CaptureOrder.validate k = .ok r ↔
      CaptureOrder.checkErr k = none ∧ r = CaptureOrder.build k := by
  cases hc : CaptureOrder.checkErr k <;> simp [CaptureOrder.validate, hc, eq_comm]

lemma refundOrder_validate_ok_iff (k : RefundOrderKwargs) (r : RefundOrder) :
    RefundOrder.validate k = .ok r ↔
      RefundOrder.checkErr k = none ∧ r = RefundOrder.build k := by
  cases hc : RefundOrder.checkErr k <;> simp [RefundOrder.validate, hc, eq_comm]

/-- C1: the claim says a facade obtained from client A keeps issuing
requests with A's credentials even after B.order is accessed.  The code
violates this: Order.set_api writes the client onto the Order CLASS, so
the facade handed out for A is the same (rebound) class object, and after
accessing B.order a capture through it is sent to B's host with B's key.
This theorem evaluates the code at the failing input: A = host-a/key-A,
B = host-b/key-B, facade taken from A, then B.order accessed, then a
capture on order id 1 — the request carries key-B and B's host, not
key-A. -/
theorem claim_C1_code_behavior :
    ∃ out : RequestOutcome,
      Order.capture
          (Ioka.order (Api.init "https://host-b.example" ⟨"key-B"⟩ "v2")
            (Ioka.order (Api.init "https://host-a.example" ⟨"key-A"⟩ "v2")
              {}))
          { id := "1", shop_id := "s1", status := "UNPAID",
            created_at := "2022-03-18T12:00:00", amount := 50000,
            currency := "KZT", capture_method := "AUTO" }
          { amount := some 50000 } { status := 200, jsonBody := "{}" } =
        some (.ok out) ∧
      out.sentHeaders.lookup "API-KEY" = some (.plain "key-B") ∧
      out.sentUrl = "https://host-b.example/v2/orders/1/capture" ∧
      ¬ out.sentHeaders.lookup "API-KEY" = some (.plain "key-A") ∧
      ¬ out.sentUrl = "https://host-a.example/v2/orders/1/capture" := by
  refine ⟨_, rfl, ?_, ?_, ?_, ?_⟩ <;> decide

/-- C2: the claim says two CreateOrder records built without external_id
carry distinct freshly generated ids.  The code computes str(uuid4()) only
once, when the class body runs, so every such record shares the single
module-load default: for any two validated constructions without
external_id the ids are EQUAL (both the module constant), refuting
distinctness. -/
theorem claim_C2_code_behavior :
    ∀ k1 k2 : CreateOrderKwargs, k1.external_id = none →
      k2.external_id = none →
      ∀ r1 r2, CreateOrder.validate k1 = .ok r1 →
        CreateOrder.validate k2 = .ok r2 →
        r1.external_id = r2.external_id ∧
        r1.external_id = CreateOrder.externalIdDefault := by
  intro k1 k2 h1 h2 r1 r2 hv1 hv2
  obtain ⟨-, hr1⟩ := (createOrder_validate_ok_iff k1 r1).mp hv1
  obtain ⟨-, hr2⟩ := (createOrder_validate_ok_iff k2 r2).mp hv2
  rw [hr1, hr2]
  simp [CreateOrder.build, h1, h2]

/-- Witness for C2: two concrete constructions without external_id share
the module-load default id. -/
theorem claim_C2_witness :
    (CreateOrder.build { amount := some 100 }).external_id =
      (CreateOrder.build { amount := some 200 }).external_id ∧
    (CreateOrder.build { amount := some 100 }).external_id =
      CreateOrder.externalIdDefault :=
  claim_C2_code_behavior { amount := some 100 } { amount := some 200 }
    rfl rfl _ _ rfl rfl

/-- C3: the claim says cancel_order(order_id=oid, reason=r) with r of at
most 255 characters validates successfully and posts to
orders/oid/cancel.  In the code `def cancel_order(self, order_id, **data)`
consumes order_id, CancelOrder requires order_id as a field, and Python
makes it impossible to pass it a second time inside **data — so every such
call fails with a ValidationError (missing order_id) and no request is
ever issued. -/
theorem claim_C3_code_behavior :
    ∀ (s : ApiState) (oid reason : String) (resp : MockResponse),
      reason.length ≤ 255 →
      Api.cancel_order s oid { order_id := none, reason := some reason }
          resp =
        .error (.missing "order_id") := by
  intro s oid reason resp hr
  simp [Api.cancel_order, CancelOrder.validate, CancelOrder.checkErr,
    firstErr, reqCheck]

/-- Witness for C3: the concrete call with order id 1 and reason test
fails with the missing order_id ValidationError. -/
theorem claim_C3_witness :
    Api.cancel_order (Api.initDefault ⟨"k"⟩) "1"
        { order_id := none, reason := some "test" }
        { status := 200, jsonBody := "{}" } =
      .error (.missing "order_id") :=
  claim_C3_code_behavior (Api.initDefault ⟨"k"⟩) "1" "test"
    { status := 200, jsonBody := "{}" } (by decide)

/-- C4: the claim says the request debug log never contains the cleartext
api key, on the first and every later call alike.  The code logs
self.headers BEFORE substituting the cleartext key into that same dict,
and the substitution persists on the instance: the first log shows the
masked SecretStr, but the SECOND call logs the cleartext key.  Evaluated
at the failing input (two consecutive calls with no headers argument). -/
theorem claim_C4_code_behavior :
    (Api.request (Api.init "https://h.example" ⟨"sk-test-123"⟩ "v2")
        "get" "orders" none none true
        { status := 200, jsonBody := "[]" }).loggedHeaders =
      [("API-KEY", "**********"), ("Content-Type", "application/json")] ∧
    (Api.request
        (Api.request (Api.init "https://h.example" ⟨"sk-test-123"⟩ "v2")
          "get" "orders" none none true
          { status := 200, jsonBody := "[]" }).state
        "get" "orders" none none true
        { status := 200, jsonBody := "[]" }).loggedHeaders =
      [("API-KEY", "sk-test-123"), ("Content-Type", "application/json")] := by
  constructor <;> rfl

/-- C5: constructing any of the four request records either succeeds —
exposing the supplied values, with declared defaults (10 for attempts, the
module default for external_id) for the unsupplied ones — or raises a
ValidationError exactly when a field violates its declared bound:
amount < 100, a non-member enum value, empty external_id/customer_id/
card_id, mcc of length other than 4, attempts outside 1..50, reason longer
than 255, a malformed back_url/success_url/failure_url, or a missing
required field. -/
theorem claim_C5_validation :
    (∀ k : CreateOrderKwargs,
      (∃ r, CreateOrder.validate k = .ok r) ↔
        ((∃ a, k.amount = some a ∧ 100 ≤ a) ∧
         (∀ c, k.currency = some c → c ∈ currencyValues) ∧
         (∀ c, k.capture_method = some c → c ∈ captureMethodValues) ∧
         (∀ e, k.external_id = some e → 1 ≤ e.length) ∧
         (∀ m, k.mcc = some m → m.length = 4) ∧
         (∀ a, k.attempts = some a → 1 ≤ a ∧ a ≤ 50) ∧
         (∀ c, k.customer_id = some c → 1 ≤ c.length) ∧
         (∀ c, k.card_id = some c → 1 ≤ c.length) ∧
         (∀ u, k.back_url = some u → isHttpUrl u = true) ∧
         (∀ u, k.success_url = some u → isHttpUrl u = true) ∧
         (∀ u, k.failure_url = some u → isHttpUrl u = true))) ∧
    (∀ k : CancelOrderKwargs,
      (∃ r, CancelOrder.validate k = .ok r) ↔
        ((∃ o, k.order_id = some o) ∧
         (∃ s, k.reason = some s ∧ s.length ≤ 255))) ∧
    (∀ k : CaptureOrderKwargs,
      (∃ r, CaptureOrder.validate k = .ok r) ↔
        ((∃ a, k.amount = some a ∧ 100 ≤ a) ∧
         (∀ s, k.reason = some s → s.length ≤ 255))) ∧
    (∀ k : RefundOrderKwargs,
      (∃ r, RefundOrder.validate k = .ok r) ↔
        ((∃ a, k.amount = some a ∧ 100 ≤ a) ∧
         (∀ s, k.reason = some s → s.length ≤ 255))) ∧
    (∀ (k : CreateOrderKwargs) (r : CreateOrder),
      CreateOrder.validate k = .ok r →
      k.amount = some r.amount ∧
      r.currency = k.currency ∧
      r.capture_method = k.capture_method ∧
      r.mcc = k.mcc ∧
      (∀ a, k.attempts = some a → r.attempts = a) ∧
      (k.attempts = none → r.attempts = 10) ∧
      (∀ e, k.external_id = some e → r.external_id = e) ∧
      (k.external_id = none →
        r.external_id = CreateOrder.externalIdDefault)) := by
  refine ⟨?_, ?_, ?_, ?_, ?_⟩
  · intro k
    rw [← createOrder_checkErr_none]
    cases hc : CreateOrder.checkErr k <;> simp [CreateOrder.validate, hc]
  · intro k
    rw [← cancelOrder_checkErr_none]
    cases hc : CancelOrder.checkErr k <;> simp [CancelOrder.validate, hc]
  · intro k
    rw [← captureOrder_checkErr_none]
    cases hc : CaptureOrder.checkErr k <;> simp [CaptureOrder.validate, hc]
  · intro k
    rw [← refundOrder_checkErr_none]
    cases hc : RefundOrder.checkErr k <;> simp [RefundOrder.validate, hc]
  · intro k r h
    obtain ⟨hchk, hr⟩ := (createOrder_validate_ok_iff k r).mp h
    rw [createOrder_checkErr_none] at hchk
    obtain ⟨⟨a, ha, -⟩, -⟩ := hchk
    subst hr
    refine ⟨by simp [CreateOrder.build, ha], rfl, rfl, rfl, ?_, ?_, ?_, ?_⟩
    · intro x hx; simp [CreateOrder.build, hx]
    · intro hx; simp [CreateOrder.build, hx]
    · intro x hx; simp [CreateOrder.build, hx]
    · intro hx; simp [CreateOrder.build, hx]

/-- Witness for C5: a concrete valid construction succeeds and takes the
attempts default, a concrete amount below 100 is rejected. -/
theorem claim_C5_validation_witness :
    (∃ r, CreateOrder.validate
      { amount := some 150, mcc := some "1234" } = .ok r) ∧
    ¬ (∃ r, CreateOrder.validate { amount := some 50 } = .ok r) ∧
    (CreateOrder.build { amount := some 150 }).attempts = 10 := by
  refine ⟨?_, ?_, ?_⟩
  · exact (claim_C5_validation.1 { amount := some 150, mcc := some "1234" }).mpr
      (by refine ⟨⟨150, rfl, by norm_num⟩, ?_, ?_, ?_, ?_, ?_, ?_, ?_, ?_, ?_, ?_⟩ <;>
        (intro x hx; cases hx <;> decide))
  · intro hex
    have hb := (claim_C5_validation.1 { amount := some 50 }).mp hex
    obtain ⟨⟨a, ha, hge⟩, -⟩ := hb
    cases ha
    omega
  · exact ((claim_C5_validation.2.2.2.2 { amount := some 150 }
      (CreateOrder.build { amount := some 150 }) rfl).2.2.2.2.2.1) rfl

/-- C6 counterexample: the claim says fields with static defaults, such as
attempts, appear in the outgoing payload with their default even when not
supplied.  In the code dict(exclude_unset=True) drops EVERY unsupplied
field: a CreateOrder built from amount alone validates with attempts = 10,
yet its serialized body is exactly [(amount, 100)] — no attempts key. -/
theorem claim_C6_counterexample :
    ∃ r, CreateOrder.validate { amount := some 100 } = .ok r ∧
      r.attempts = 10 ∧
      r.dictExcludeUnset = [("amount", JsonVal.int 100)] ∧
      ∀ p ∈ r.dictExcludeUnset, ¬ p.1 = "attempts" := by
  refine ⟨CreateOrder.build { amount := some 100 }, rfl, rfl, ?_, ?_⟩ <;>
    decide

/-- C6 (amended): the serialized request body of every validated request
record contains exactly the fields the caller supplied, in declaration
order, with the supplied values — unsupplied fields are omitted even when
they carry a static default such as attempts = 10 or the external_id
module default. -/
theorem claim_C6_payload :
    (∀ (k : CreateOrderKwargs) r, CreateOrder.validate k = .ok r →
      r.dictExcludeUnset = createOrderSuppliedPayload k) ∧
    (∀ (k : CancelOrderKwargs) r, CancelOrder.validate k = .ok r →
      r.dictExcludeUnset = cancelOrderSuppliedPayload k) ∧
    (∀ (k : CaptureOrderKwargs) r, CaptureOrder.validate k = .ok r →
      r.dictExcludeUnset = captureOrderSuppliedPayload k) ∧
    (∀ (k : RefundOrderKwargs) r, RefundOrder.validate k = .ok r →
      r.dictExcludeUnset = refundOrderSuppliedPayload k) := by
  refine ⟨?_, ?_, ?_, ?_⟩
  · intro k r h
    obtain ⟨-, hr⟩ := (createOrder_validate_ok_iff k r).mp h
    rw [hr, createOrder_dict_build]
  · intro k r h
    obtain ⟨-, hr⟩ := (cancelOrder_validate_ok_iff k r).mp h
    rw [hr, cancelOrder_dict_build]
  · intro k r h
    obtain ⟨-, hr⟩ := (captureOrder_validate_ok_iff k r).mp h
    rw [hr, captureOrder_dict_build]
  · intro k r h
    obtain ⟨-, hr⟩ := (refundOrder_validate_ok_iff k r).mp h
    rw [hr, refundOrder_dict_build]

/-- Witness for the amended C6 at a concrete subset of supplied fields. -/
theorem claim_C6_payload_witness :
    (CreateOrder.build
        { amount := some 100, currency := some "KZT" }).dictExcludeUnset =
      createOrderSuppliedPayload
        { amount := some 100, currency := some "KZT" } :=
  claim_C6_payload.1 { amount := some 100, currency := some "KZT" } _ rfl

/-- C7 counterexample: the claim says any status outside the 2xx range
with raise_for_status true fails with an HttpError.  requests'
raise_for_status only raises for 400-599, so a mocked 304 response — which
is outside 2xx — does not raise: the call returns the parsed body. -/
theorem claim_C7_counterexample :
    (304 < 200 ∨ 300 ≤ 304) ∧
    (Api.request (Api.init "https://h.example" ⟨"k"⟩ "v2") "get" "orders"
        none none true { status := 304, jsonBody := "{}" }).result =
      .ok (.json "{}") := by
  exact ⟨Or.inr (by norm_num), rfl⟩

/-- C7 (amended): with raise_for_status true a 400-599 status fails the
call with an HttpError carrying the status and body, any other status
returns the parsed JSON body, and with raise_for_status false the raw
response object is returned unmodified whatever the status. -/
theorem claim_C7_raise_for_status :
    ∀ (s : ApiState) (m u : String)
      (p : Option (List (String × JsonVal))) (hd : Option Headers)
      (resp : MockResponse),
      ((400 ≤ resp.status ∧ resp.status ≤ 599) →
        (Api.request s m u p hd true resp).result =
          .error { status := resp.status, body := resp.jsonBody }) ∧
      ((resp.status < 400 ∨ 599 < resp.status) →
        (Api.request s m u p hd true resp).result =
          .ok (.json resp.jsonBody)) ∧
      (Api.request s m u p hd false resp).result = .ok (.raw resp) := by
  intro s m u p hd resp
  refine ⟨?_, ?_, ?_⟩
  · intro hrange
    have hb : raisesForStatus resp.status = true := by
      simp [raisesForStatus]
      omega
    simp [Api.request, hb]
  · intro hrange
    have hb : raisesForStatus resp.status = false := by
      simp [raisesForStatus]
      omega
    simp [Api.request, hb]
  · simp [Api.request]

/-- Witness for the amended C7: a concrete 404 raises, a concrete 304
returns the body, a concrete raw call returns the response. -/
theorem claim_C7_witness :
    (Api.request (Api.initDefault ⟨"k"⟩) "get" "orders" none none true
        { status := 404, jsonBody := "e" }).result =
      .error { status := 404, body := "e" } ∧
    (Api.request (Api.initDefault ⟨"k"⟩) "get" "orders" none none false
        { status := 500, jsonBody := "e" }).result =
      .ok (.raw { status := 500, jsonBody := "e" }) := by
  constructor
  · exact (claim_C7_raise_for_status _ _ _ _ _ _).1 (by norm_num)
  · exact (claim_C7_raise_for_status (Api.initDefault ⟨"k"⟩) "get" "orders"
      none none { status := 500, jsonBody := "e" }).2.2

/-- C9: every request URL is {api_host}/{version}/{path} and the verb/path
pairs follow the operations table; in particular a capture via an Order
facade instance with id X posts to orders/X/capture, scoped by that very
id. -/
theorem claim_C9_urls :
    (∀ (s : ApiState) (m u : String) (p : Option (List (String × JsonVal)))
        (hd : Option Headers) (rfs : Bool) (resp : MockResponse),
      (Api.request s m u p hd rfs resp).sentUrl =
        s.api_host ++ "/" ++ s.version ++ "/" ++ u ∧
      (Api.request s m u p hd rfs resp).sentMethod = m) ∧
    (∀ (s : ApiState) (oid rid : String) (resp : MockResponse),
      (Api.get_orders s resp).sentMethod = "get" ∧
      (Api.get_orders s resp).sentUrl =
        s.api_host ++ "/" ++ s.version ++ "/" ++ "orders" ∧
      (Api.get_order_by_id s oid resp).sentMethod = "get" ∧
      (Api.get_order_by_id s oid resp).sentUrl =
        s.api_host ++ "/" ++ s.version ++ "/" ++ ("orders/" ++ oid) ∧
      (Api.get_order_events s oid resp).sentMethod = "get" ∧
      (Api.get_order_events s oid resp).sentUrl =
        s.api_host ++ "/" ++ s.version ++ "/" ++
          ("orders/" ++ oid ++ "/events") ∧
      (Api.get_refunds s oid resp).sentMethod = "get" ∧
      (Api.get_refunds s oid resp).sentUrl =
        s.api_host ++ "/" ++ s.version ++ "/" ++
          ("orders/" ++ oid ++ "/refunds") ∧
      (Api.get_refund_by_id s oid rid resp).sentMethod = "get" ∧
      (Api.get_refund_by_id s oid rid resp).sentUrl =
        s.api_host ++ "/" ++ s.version ++ "/" ++
          ("orders/" ++ oid ++ "/refunds/" ++ rid)) ∧
    (∀ (s : ApiState) (k : CreateOrderKwargs) (resp : MockResponse)
        (out : RequestOutcome), Api.create_order s k resp = .ok out →
      out.sentMethod = "post" ∧
      out.sentUrl = s.api_host ++ "/" ++ s.version ++ "/" ++ "orders") ∧
    (∀ (s : ApiState) (oid : String) (k : CancelOrderKwargs)
        (resp : MockResponse) (out : RequestOutcome),
      Api.cancel_order s oid k resp = .ok out →
      out.sentMethod = "post" ∧
      out.sentUrl = s.api_host ++ "/" ++ s.version ++ "/" ++
        ("orders/" ++ oid ++ "/cancel")) ∧
    (∀ (s : ApiState) (oid : String) (k : CaptureOrderKwargs)
        (resp : MockResponse) (out : RequestOutcome),
      Api.capture_order s oid k resp = .ok out →
      out.sentMethod = "post" ∧
      out.sentUrl = s.api_host ++ "/" ++ s.version ++ "/" ++
        ("orders/" ++ oid ++ "/capture")) ∧
    (∀ (s : ApiState) (oid : String) (k : RefundOrderKwargs)
        (resp : MockResponse) (out : RequestOutcome),
      Api.refund_order s oid k resp = .ok out →
      out.sentMethod = "post" ∧
      out.sentUrl = s.api_host ++ "/" ++ s.version ++ "/" ++
        ("orders/" ++ oid ++ "/refunds")) ∧
    (∀ (api : ApiState) (cls : OrderClassState) (o : OrderRec)
        (data : CaptureOrderKwargs) (resp : MockResponse)
        (out : RequestOutcome),
      cls.api = some api →
      Order.capture cls o data resp = some (.ok out) →
      out.sentMethod = "post" ∧
      out.sentUrl = api.api_host ++ "/" ++ api.version ++ "/" ++
        ("orders/" ++ o.id ++ "/capture")) := by
  refine ⟨?_, ?_, ?_, ?_, ?_, ?_, ?_⟩
  · intro s m u p hd rfs resp
    exact ⟨rfl, rfl⟩
  · intro s oid rid resp
    exact ⟨rfl, rfl, rfl, rfl, rfl, rfl, rfl, rfl, rfl, rfl⟩
  · intro s k resp out h
    cases hv : CreateOrder.validate k with
    | error e => simp [Api.create_order, hv] at h
    | ok body =>
      simp only [Api.create_order, hv, Except.ok.injEq] at h
      subst h
      exact ⟨rfl, rfl⟩
  · intro s oid k resp out h
    cases hv : CancelOrder.validate k with
    | error e => simp [Api.cancel_order, hv] at h
    | ok body =>
      simp only [Api.cancel_order, hv, Except.ok.injEq] at h
      subst h
      exact ⟨rfl, rfl⟩
  · intro s oid k resp out h
    cases hv : CaptureOrder.validate k with
    | error e => simp [Api.capture_order, hv] at h
    | ok body =>
      simp only [Api.capture_order, hv, Except.ok.injEq] at h
      subst h
      exact ⟨rfl, rfl⟩
  · intro s oid k resp out h
    cases hv : RefundOrder.validate k with
    | error e => simp [Api.refund_order, hv] at h
    | ok body =>
      simp only [Api.refund_order, hv, Except.ok.injEq] at h
      subst h
      exact ⟨rfl, rfl⟩
  · intro api cls o data resp out hcls h
    simp only [Order.capture, hcls, Option.some.injEq] at h
    cases hv : CaptureOrder.validate data with
    | error e => simp [Api.capture_order, hv] at h
    | ok body =>
      simp only [Api.capture_order, hv, Except.ok.injEq] at h
      subst h
      exact ⟨rfl, rfl⟩

/-- Witness for C9: a concrete capture through the facade of a bound
client, on an order with id 1, posts to orders/1/capture. -/
theorem claim_C9_urls_witness :
    ∃ out : RequestOutcome,
      Order.capture (Ioka.order (Api.initDefault ⟨"k"⟩) {})
          { id := "1", shop_id := "s1", status := "UNPAID",
            created_at := "2022-03-18T12:00:00", amount := 50000,
            currency := "KZT", capture_method := "AUTO" }
          { amount := some 50000 } { status := 200, jsonBody := "{}" } =
        some (.ok out) ∧
      out.sentMethod = "post" ∧
      out.sentUrl = "https://stage-api.ioka.kz" ++ "/" ++ "v2" ++ "/" ++
        ("orders/" ++ "1" ++ "/capture") := by
  refine ⟨_, rfl, ?_⟩
  exact claim_C9_urls.2.2.2.2.2.2 (Api.initDefault ⟨"k"⟩)
    (Ioka.order (Api.initDefault ⟨"k"⟩) {})
    { id := "1", shop_id := "s1", status := "UNPAID",
      created_at := "2022-03-18T12:00:00", amount := 50000,
      currency := "KZT", capture_method := "AUTO" }
    { amount := some 50000 } { status := 200, jsonBody := "{}" } _ rfl rfl

/-- C10: a call to _request without an explicit headers argument (or with
a falsy empty dict) mutates the instance: the cleartext key is written
into the shared headers dict under API-KEY, replacing the SecretStr set by
the constructor, and the next call starts from (and logs) that mutated
dict. -/
theorem claim_C10_header_mutation :
    ∀ (host version secret m1 u1 m2 u2 : String)
      (p1 p2 : Option (List (String × JsonVal))) (rfs1 rfs2 : Bool)
      (resp1 resp2 : MockResponse) (hd1 : Option Headers),
      hd1 = none ∨ hd1 = some [] →
      (Api.init host ⟨secret⟩ version).headers.lookup "API-KEY" =
        some (.secret ⟨secret⟩) ∧
      (Api.request (Api.init host ⟨secret⟩ version) m1 u1 p1 hd1 rfs1
          resp1).state.headers.lookup "API-KEY" = some (.plain secret) ∧
      (Api.request
          (Api.request (Api.init host ⟨secret⟩ version) m1 u1 p1 hd1 rfs1
            resp1).state
          m2 u2 p2 none rfs2 resp2).loggedHeaders =
        [("API-KEY", secret), ("Content-Type", "application/json")] := by
  intro host version secret m1 u1 m2 u2 p1 p2 rfs1 rfs2 resp1 resp2 hd1 h
  rcases h with rfl | rfl
  · exact ⟨rfl, rfl, rfl⟩
  · exact ⟨rfl, rfl, rfl⟩

/-- Witness for C10 at concrete configuration and calls. -/
theorem claim_C10_header_mutation_witness :
    (Api.request (Api.init "https://h.example" ⟨"sk-1"⟩ "v2") "get"
        "orders" none none true
        { status := 200, jsonBody := "[]" }).state.headers.lookup
      "API-KEY" = some (.plain "sk-1") :=
  (claim_C10_header_mutation "https://h.example" "v2" "sk-1" "get"
    "orders" "get" "orders" none none true true
    { status := 200, jsonBody := "[]" } { status := 200, jsonBody := "[]" }
    none (Or.inl rfl)).2.1

/-- C8: ISODatetime validation accepts every canonical ISO-8601/RFC-3339
timestamp string (quantified through its components TSInput; the trailing
Z or numeric offset is dropped — the code strips Z before parsing) and
every datetime value, returning in both cases the timezone-naive isoformat
string of the clock components; any value that is neither a string nor a
datetime is rejected with a TypeError; every accepted result is the
isoformat of a timezone-naive datetime. -/
theorem claim_C8_isodatetime :
    (∀ t : TSInput, t.validB = true →
      ISODatetime.validate (.str t.render) =
        .ok (PyDatetime.isoformat
          { year := t.year, month := t.month, day := t.day,
            hour := t.hour, minute := t.minute, second := t.second,
            microsecond := t.frac.getD 0, tzOffsetMinutes := none })) ∧
    (∀ d : PyDatetime, ISODatetime.validate (.dt d) =
      .ok (PyDatetime.isoformat { d with tzOffsetMinutes := none })) ∧
    (∀ descr, ISODatetime.validate (.other descr) =
      .error .typeError) ∧
    (∀ v r, ISODatetime.validate v = .ok r →
      ∃ d : PyDatetime, d.tzOffsetMinutes = none ∧
        r = PyDatetime.isoformat d) := by
  refine ⟨?_, ?_, ?_, ?_⟩
  · intro t hv
    have hp := renderChars_parse t hv
    simp [ISODatetime.validate, TSInput.render, String.toList, hp]
  · intro d
    rfl
  · intro descr
    rfl
  · intro v r h
    cases v with
    | str s =>
      revert h
      cases hp : fromisoformatChars (removeZ s.data) with
      | none => simp [ISODatetime.validate, String.toList, hp]
      | some d =>
        simp only [ISODatetime.validate, String.toList, hp,
          Except.ok.injEq]
        intro h
        exact ⟨{ d with tzOffsetMinutes := none }, rfl, h.symm⟩
    | dt d =>
      simp only [ISODatetime.validate, Except.ok.injEq] at h
      exact ⟨{ d with tzOffsetMinutes := none }, rfl, h.symm⟩
    | other descr => simp [ISODatetime.validate] at h

/-- Witness for C8 at a concrete RFC 3339 UTC string, a concrete aware
datetime, and a concrete non-string non-datetime value. -/
theorem claim_C8_isodatetime_witness :
    ISODatetime.validate
        (.str (TSInput.render
          { year := 2019, month := 8, day := 24, hour := 14, minute := 15,
            second := 22, frac := none, tz := .utcZ })) =
      .ok (PyDatetime.isoformat
        { year := 2019, month := 8, day := 24, hour := 14, minute := 15,
          second := 22, microsecond := 0, tzOffsetMinutes := none }) ∧
    ISODatetime.validate (.other "a float") = .error .typeError := by
  constructor
  · exact claim_C8_isodatetime.1
      { year := 2019, month := 8, day := 24, hour := 14, minute := 15,
        second := 22, frac := none, tz := .utcZ } (by decide)
  · exact claim_C8_isodatetime.2.2.1 "a float"

